import Mathlib

/-!
# Verification of the safeguard diff-to-prompt pipeline

A shallow embedding of the core of `main.go` from the `safeguard` repository:
prompt building (`buildPrompt`), diff generation (`generateDiff`), revision
file fetching (`getFileFromBranch`), the two provider calls
(`getAnthropicAnalysis`, `getOpenAIAnalysis`), and the batch orchestration of
`main` / `parseFlags`.

External effects (the `git show` process, the `diff` utility, temp-file I/O,
HTTP transport, JSON decoding, environment variables) are modelled by
explicit environment records supplying the outcome of each effect; the
control flow acting on those outcomes is translated directly from the Go
source.  Observable behaviour (text printed to standard output, external
process invocations, outbound network requests) is modelled as an explicit
event trace returned alongside each function's result.
-/

set_option linter.unusedVariables false

namespace Safeguard

/-! ## String primitives

Two Go string primitives are modelled directly over the character sequence
(Lean core's `String.trim` / `String.startsWith` are not definitionally
reducible, which the concrete witnesses below rely on). -/

/-- Go's `strings.TrimSpace`: the string with all leading and trailing
whitespace characters removed. -/
def trimSpace (s : String) : String :=
  String.mk (((s.data.dropWhile Char.isWhitespace).reverse.dropWhile Char.isWhitespace).reverse)

/-- Go's `strings.HasPrefix(s, p)`. -/
def hasPrefixGo (s p : String) : Bool :=
  p.data.isPrefixOf s.data

/-! ## Prompt building (`buildPrompt`, main.go lines 243-246)

Go formats a fixed template with two `%s` slots (file-path list, combined
diff).  We split the template at the `%s` slots into three literal segments;
`fmt.Sprintf` then corresponds to plain concatenation. -/

/-- Segment of the `buildPrompt` template before the first `%s`. -/
def promptT1 : String :=
  "You are an expert code reviewer specializing in finding bugs. Analyze the following changes in the file(s) "

/-- Segment of the `buildPrompt` template between the two `%s` slots. -/
def promptT2 : String :=
  " to identify potential bugs, logic errors, edge cases, and performance issues.\n\nDiff:\n```\n"

/-- Segment of the `buildPrompt` template after the second `%s`.  Note that it
unconditionally contains focus item 8 (`Cross-file dependencies and impacts`)
and the closing sentence about multiple files. -/
def promptT3 : String :=
  "\n```\n\nFocus on:\n1. Logic errors\n2. Race conditions\n3. Memory leaks\n4. Security vulnerabilities\n5. API contract violations\n6. Edge cases\n7. Performance issues\n8. Cross-file dependencies and impacts\n\nProvide a concise analysis listing only potential issues. If there are no issues, state that explicitly. When analyzing multiple files, consider how changes might affect interactions between files."

/-- `buildPrompt(filePaths, diff)`: `fmt.Sprintf(template, filePaths, diff)`
with the fixed review template (main.go lines 243-246). -/
def buildPrompt (filePaths diff : String) : String :=
  promptT1 ++ filePaths ++ promptT2 ++ diff ++ promptT3

/-- The cross-file-effects review focus item of the template. -/
def crossFileItem : String := "8. Cross-file dependencies and impacts"

/-! ## Diff generation (`generateDiff`, main.go lines 196-241) -/

/-- Outcome of `cmd.Run()` for the external `diff` process:
`ok` means the command ran and exited with status 0 (`err == nil`);
`exitErr code` means `err` was an `*exec.ExitError` whose `ExitCode()` is
`code` — the exit status for a normally exited process, or `-1` when the
process was terminated by a signal; `startErr` means `err` was some other
error (e.g. the binary could not be started). -/
inductive RunResult where
  | ok : RunResult
  | exitErr (code : Int) : RunResult
  | startErr (msg : String) : RunResult
  deriving DecidableEq, Repr

/-- Environment for one `generateDiff` invocation: the outcome of each
fallible external step, in the order the Go code performs them (create the
two temp files, write the two temp files, run `diff`), and the text the
`diff` process wrote to its captured standard output. -/
structure DiffEnv where
  createSourceErr : Option String
  createTargetErr : Option String
  writeSourceErr : Option String
  writeTargetErr : Option String
  runResult : RunResult
  diffStdout : String
  deriving Repr

/-- `generateDiff(sourceContent, targetContent, sourceBranch, targetBranch, filePath)`
(main.go lines 196-241).  The first component records whether the external
`diff` process was actually invoked.  The error-handling of `cmd.Run()`
mirrors line 235: `if exitErr, ok := err.(*exec.ExitError); !ok || exitErr.ExitCode() > 1`
— only a non-`ExitError` error or an exit code strictly greater than 1 is a
failure; `err == nil` (exit 0) and any `ExitCode() <= 1` return the captured
standard output. -/
def generateDiff (env : DiffEnv)
    (sourceContent targetContent sourceBranch targetBranch filePath : String) :
    Bool × Except String String :=
  match env.createSourceErr with
  | some e => (false, .error ("failed to create source temp file: " ++ e))
  | none =>
    match env.createTargetErr with
    | some e => (false, .error ("failed to create target temp file: " ++ e))
    | none =>
      match env.writeSourceErr with
      | some e => (false, .error ("failed to write to source temp file: " ++ e))
      | none =>
        match env.writeTargetErr with
        | some e => (false, .error ("failed to write to target temp file: " ++ e))
        | none =>
          match env.runResult with
          | .ok => (true, .ok env.diffStdout)
          | .exitErr c =>
            if c > 1 then
              (true, .error ("diff command failed: exit status " ++ toString c))
            else
              (true, .ok env.diffStdout)
          | .startErr m => (true, .error ("diff command failed: " ++ m))

/-! ## Revision file fetching (`getFileFromBranch`, main.go lines 176-194)

`cmd.CombinedOutput()` directs both the standard output and the standard
error of the `git show` process into one buffer, so the captured text is the
concatenation, in write order, of everything the process wrote to either
stream.  We model the process as a list of tagged write events. -/

/-- The output stream a process write went to. -/
inductive ProcStream where
  | stdout : ProcStream
  | stderr : ProcStream
  deriving DecidableEq, Repr

/-- One write performed by an external process. -/
structure WriteEvent where
  stream : ProcStream
  text : String
  deriving DecidableEq, Repr

/-- The text captured by `cmd.CombinedOutput()`: the concatenation of every
write, to either stream, in order. -/
def combinedOutput : List WriteEvent → String
  | [] => ""
  | w :: ws => w.text ++ combinedOutput ws

/-- Result of running a `git show` process: its writes and, when the process
failed (non-zero exit or start failure), the rendering of the Go error. -/
structure ProcResult where
  writes : List WriteEvent
  procErr : Option String
  deriving Repr

/-- Environment for `getFileFromBranch`: the result of `os.UserHomeDir()` and
the behaviour of `git show <branch>:<path>` per branch and (expanded) path. -/
structure GitEnv where
  home : Except String String
  gitShow : String → String → ProcResult

/-- Observable events of `getFileFromBranch`: printed text and external
`git show` process invocations. -/
inductive GEvent where
  | out (s : String) : GEvent
  | proc (branch path : String) : GEvent
  deriving DecidableEq, Repr

/-- Home-directory expansion of main.go lines 180-186: when the path starts
with `~`, `strings.Replace(filePath, "~", home, 1)` replaces that leading
`~` (its first occurrence) with the home directory. -/
def expandHome (env : GitEnv) (filePath : String) : Except String String :=
  if hasPrefixGo filePath "~" then
    match env.home with
    | .error e => .error ("failed to get home directory: " ++ e)
    | .ok home => .ok (home ++ filePath.drop 1)
  else
    .ok filePath

/-- The result `getFileFromBranch` derives from the `git show` process
(main.go lines 188-193): on process failure the error embeds the combined
output; on success the combined output itself is returned as the content. -/
def gitShowOutcome (r : ProcResult) : Except String String :=
  match r.procErr with
  | some e => .error ("git show failed: " ++ e ++ " - " ++ combinedOutput r.writes)
  | none => .ok (combinedOutput r.writes)

/-- `getFileFromBranch(filePath, branch)` (main.go lines 176-194), returning
its event trace and result. -/
def getFileFromBranch (env : GitEnv) (filePath branch : String) :
    List GEvent × Except String String :=
  let ev0 := GEvent.out ("Fetching file '" ++ filePath ++ "' from branch '" ++ branch ++ "'\n")
  match expandHome env filePath with
  | .error e => ([ev0], .error e)
  | .ok fp => ([ev0, .proc branch fp], gitShowOutcome (env.gitShow branch fp))

/-! ## Anthropic provider (`getAnthropicAnalysis`, main.go lines 248-345) -/

/-- `AnthropicMessage` (main.go lines 248-251). -/
structure AnthropicMessage where
  role : String
  content : String
  deriving DecidableEq, Repr

/-- `AnthropicRequest` (main.go lines 253-258). -/
structure AnthropicRequest where
  model : String
  maxTokens : Nat
  system : String
  messages : List AnthropicMessage
  deriving DecidableEq, Repr

/-- One entry of the `content` list of `AnthropicResponse`. -/
structure AnthropicContentEntry where
  type : String
  text : String
  deriving DecidableEq, Repr

/-- `AnthropicResponse` (main.go lines 260-271). -/
structure AnthropicResponse where
  id : String
  type : String
  role : String
  content : List AnthropicContentEntry
  model : String
  stopReason : String
  stopSequence : String
  deriving DecidableEq, Repr

/-- An HTTP response as seen by the caller: status code and body text. -/
structure HttpResponse where
  statusCode : Int
  body : String
  deriving DecidableEq, Repr

/-- Environment for `getAnthropicAnalysis`: the HTTP transport
(`client.Do`, as a function of the request headers and body) and the JSON
decoding of a response body into an `AnthropicResponse`
(`json.NewDecoder(...).Decode`). -/
structure AnthEnv where
  send : List (String × String) → String → Except String HttpResponse
  decode : String → Except String AnthropicResponse

/-- Observable events of `getAnthropicAnalysis`: text printed to standard
output and the outbound network request. -/
inductive AEvent where
  | out (s : String) : AEvent
  | net (headers : List (String × String)) (body : String) : AEvent
  deriving DecidableEq, Repr

/-- The fixed system instruction (main.go line 283; the identical literal
recurs at line 360 for the OpenAI call). -/
def reviewSystemInstruction : String :=
  "You are an expert at identifying potential bugs in code changes. Be concise and focus only on likely issues."

/-- The request headers set at main.go lines 302-305, under the canonical
names Go's `http.Header.Set` stores them as. -/
def anthropicHeaders (apiKey : String) : List (String × String) :=
  [("Content-Type", "application/json"),
   ("X-Api-Key", apiKey),
   ("Anthropic-Version", "2023-06-01")]

/-- The line `fmt.Printf("  %s: %s\n", k, v)` prints for one header
(main.go line 313); `v` is a `[]string`, rendered by `fmt` as `[value]`. -/
def headerLine (kv : String × String) : String :=
  "  " ++ kv.1 ++ ": [" ++ kv.2 ++ "]\n"

/-- The `AnthropicRequest` built at main.go lines 280-290: the given model,
a fixed 1024-token cap, the fixed system instruction, and one user message
carrying the prompt. -/
def anthReq (model prompt : String) : AnthropicRequest :=
  { model := model, maxTokens := 1024, system := reviewSystemInstruction,
    messages := [{ role := "user", content := prompt }] }

/-- `getAnthropicAnalysis(apiKey, model, prompt)` (main.go lines 273-345),
returning its event trace and result.  `marshal` models `json.Marshal` of an
`AnthropicRequest` (an external library function; for this request shape it
never fails).  Go map iteration order over the three headers is unspecified;
the trace fixes the insertion order, which no theorem below depends on. -/
def getAnthropicAnalysis (marshal : AnthropicRequest → String) (env : AnthEnv)
    (apiKey model prompt : String) : List AEvent × Except String String :=
  let ev0 := AEvent.out "\nStarting Anthropic API analysis...\n"
  if apiKey = "" then
    ([ev0], .error "Anthropic API key is required")
  else
    let reqBody : AnthropicRequest := anthReq model prompt
    let jsonData := marshal reqBody
    let headers := anthropicHeaders apiKey
    let debugEvs : List AEvent :=
      [.out ("\nRequest payload: " ++ jsonData ++ "\n"),
       .out "\nSending request to Anthropic API...\n",
       .out "Headers:\n"]
      ++ headers.map (fun kv => AEvent.out (headerLine kv))
    let pre := [ev0] ++ debugEvs ++ [AEvent.net headers jsonData]
    match env.send headers jsonData with
    | .error e => (pre, .error ("failed to send request: " ++ e))
    | .ok resp =>
      if resp.statusCode < 200 ∨ 300 ≤ resp.statusCode then
        (pre ++ [.out ("API Error: Status " ++ toString resp.statusCode
                       ++ "\nResponse: " ++ resp.body ++ "\n")],
         .error ("API request failed with status " ++ toString resp.statusCode))
      else
        let evs := pre ++ [AEvent.out ("Response body: " ++ resp.body ++ "\n")]
        match env.decode resp.body with
        | .error e =>
          (evs, .error ("failed to decode response: " ++ e ++ " - response body: " ++ resp.body))
        | .ok result =>
          match result.content with
          | [] => (evs, .error "empty response from Anthropic")
          | entry :: _ => (evs, .ok entry.text)

/-! ## OpenAI provider (`getOpenAIAnalysis`, main.go lines 347-380) -/

/-- A chat message of the go-openai client. -/
structure ChatMessage where
  role : String
  content : String
  deriving DecidableEq, Repr

/-- One choice of a chat-completion response. -/
structure ChatChoice where
  message : ChatMessage
  deriving DecidableEq, Repr

/-- A chat-completion response: its list of choices. -/
structure ChatResponse where
  choices : List ChatChoice
  deriving DecidableEq, Repr

/-- The chat-completion request built at main.go lines 355-368. -/
structure ChatRequest where
  model : String
  messages : List ChatMessage
  maxTokens : Nat
  deriving DecidableEq, Repr

/-- Environment for `getOpenAIAnalysis`: the behaviour of
`client.CreateChatCompletion` as a function of the api key and request. -/
structure OpenAIEnv where
  createChatCompletion : String → ChatRequest → Except String ChatResponse

/-- Observable events of `getOpenAIAnalysis`: the outbound network request
issued by the go-openai client. -/
inductive OEvent where
  | net (apiKey : String) (req : ChatRequest) : OEvent
  deriving DecidableEq, Repr

/-- The chat-completion request built at main.go lines 355-368: the given
model, the fixed system instruction, the user prompt, and a fixed
1024-token cap. -/
def oaiReq (model prompt : String) : ChatRequest :=
  { model := model,
    messages :=
      [{ role := "system", content := reviewSystemInstruction },
       { role := "user", content := prompt }],
    maxTokens := 1024 }

/-- `getOpenAIAnalysis(apiKey, model, prompt)` (main.go lines 347-380),
returning its event trace and result. -/
def getOpenAIAnalysis (env : OpenAIEnv) (apiKey model prompt : String) :
    List OEvent × Except String String :=
  if apiKey = "" then
    ([], .error "OpenAI API key is required")
  else
    let req : ChatRequest := oaiReq model prompt
    match env.createChatCompletion apiKey req with
    | .error e => ([.net apiKey req], .error ("failed to get OpenAI analysis: " ++ e))
    | .ok resp =>
      match resp.choices with
      | [] => ([.net apiKey req], .error "empty response from OpenAI")
      | c :: _ => ([.net apiKey req], .ok c.message.content)

/-! ## Batch orchestration (`main` and the tail of `parseFlags`, main.go lines 27-174)

The interactive file selector and `flag.Parse` are external collaborators
(spec §1 places them out of scope); `Config` below is the configuration as
it stands right after the flag values and the selected file list are known,
i.e. just before the model-default and credential-resolution tail of
`parseFlags` (main.go lines 138-171), which is modelled by `resolveConfig`. -/

/-- `Config` (main.go lines 18-25). -/
structure Config where
  filePaths : List String
  sourceBranch : String
  targetBranch : String
  model : String
  provider : String
  apiKey : String
  deriving DecidableEq, Repr

/-- Observable events of a whole run: printed text, external `git show`
invocations, external `diff` invocations, and outbound analysis requests. -/
inductive MainEvent where
  | print (s : String) : MainEvent
  | fetch (branch path : String) : MainEvent
  | diffRun (path : String) : MainEvent
  | providerCall (provider prompt : String) : MainEvent
  deriving DecidableEq, Repr

/-- How the process ends: an explicit `os.Exit(code)`, or `main` returning
normally (process exit status 0) after printing the analysis. -/
inductive Outcome where
  | exited (code : Nat) : Outcome
  | completed : Outcome
  deriving DecidableEq, Repr

/-- Environment of a whole run: environment variables (`os.Getenv`), the
`git show` behaviour, the external `diff` behaviour as a function of the two
contents, the two labels and the file path, the JSON marshaller and the two
provider environments. -/
structure Env where
  getenv : String → String
  git : GitEnv
  diffFor : String → String → String → String → String → DiffEnv
  marshal : AnthropicRequest → String
  anth : AnthEnv
  oai : OpenAIEnv

/-- Model-default and credential-resolution tail of `parseFlags`
(main.go lines 138-171), with its printed output.  `none` models the
`os.Exit(1)` on a missing credential; note the `switch` at lines 157-170 has
no `default`, so an unrecognized provider with an empty `--key` passes
through unchecked. -/
def resolveConfig (getenv : String → String) (cfg : Config) :
    List MainEvent × Option Config :=
  let cfg :=
    if cfg.model = "" then
      if cfg.provider = "anthropic" then
        { cfg with model := "claude-3-5-sonnet-20240620" }
      else
        { cfg with model := "gpt-4-turbo" }
    else cfg
  let evs : List MainEvent := [.print ("Using model: " ++ cfg.model ++ "\n")]
  if cfg.apiKey = "" then
    if cfg.provider = "anthropic" then
      let k := getenv "ANTHROPIC_API_KEY"
      if k = "" then
        (evs ++ [.print "Error: ANTHROPIC_API_KEY environment variable not set. Use --key flag or set the environment variable.\n"],
         none)
      else (evs, some { cfg with apiKey := k })
    else if cfg.provider = "openai" then
      let k := getenv "OPENAI_API_KEY"
      if k = "" then
        (evs ++ [.print "Error: OPENAI_API_KEY environment variable not set. Use --key flag or set the environment variable.\n"],
         none)
      else (evs, some { cfg with apiKey := k })
    else (evs, some cfg)
  else (evs, some cfg)

/-- Events of `getFileFromBranch`, as events of the whole run. -/
def GEvent.toMain : GEvent → MainEvent
  | .out s => .print s
  | .proc b p => .fetch b p

/-- Events of `getAnthropicAnalysis`, as events of the whole run; the
network request is the run's single outbound analysis call, carrying
`prompt`. -/
def AEvent.toMain (provider prompt : String) : AEvent → MainEvent
  | .out s => .print s
  | .net _ _ => .providerCall provider prompt

/-- Events of `getOpenAIAnalysis`, as events of the whole run. -/
def OEvent.toMain (provider prompt : String) : OEvent → MainEvent
  | .net _ _ => .providerCall provider prompt

/-- One iteration of the per-file loop of `main` (main.go lines 47-74):
fetch the file at both revisions, generate the diff, and classify the file.
Returns the iteration's event trace and, when the file is usable
(no failure, diff non-blank after `strings.TrimSpace`), the pair of its
`"=== File: <path> ===\n<diff>"` section and its path, exactly the strings
appended to `allDiffs` and `allFilePaths` at lines 69-70. -/
def processFile (env : Env) (cfg : Config) (filePath : String) :
    List MainEvent × Option (String × String) :=
  let ev0 : List MainEvent := [.print ("\nProcessing file: " ++ filePath ++ "\n")]
  let (g1, r1) := getFileFromBranch env.git filePath cfg.sourceBranch
  match r1 with
  | .error e =>
    (ev0 ++ g1.map GEvent.toMain
         ++ [.print ("Error getting file " ++ filePath ++ " from source branch: " ++ e ++ "\n")],
     none)
  | .ok sourceContent =>
    let (g2, r2) := getFileFromBranch env.git filePath cfg.targetBranch
    match r2 with
    | .error e =>
      (ev0 ++ g1.map GEvent.toMain ++ g2.map GEvent.toMain
           ++ [.print ("Error getting file " ++ filePath ++ " from target branch: " ++ e ++ "\n")],
       none)
    | .ok targetContent =>
      let denv := env.diffFor sourceContent targetContent cfg.sourceBranch cfg.targetBranch filePath
      let (ran, rd) :=
        generateDiff denv sourceContent targetContent cfg.sourceBranch cfg.targetBranch filePath
      let evd : List MainEvent :=
        ev0 ++ g1.map GEvent.toMain ++ g2.map GEvent.toMain
            ++ (if ran then [.diffRun filePath] else [])
      match rd with
      | .error e =>
        (evd ++ [.print ("Error generating diff for " ++ filePath ++ ": " ++ e ++ "\n")], none)
      | .ok diff =>
        if trimSpace diff ≠ "" then
          (evd, some ("=== File: " ++ filePath ++ " ===\n" ++ diff, filePath))
        else
          (evd ++ [.print ("No changes detected in " ++ filePath ++ "\n")], none)

/-- The whole per-file loop (main.go lines 44-74): event trace and the list
of usable `(section, path)` pairs in input order. -/
def processFiles (env : Env) (cfg : Config) : List String → List MainEvent × List (String × String)
  | [] => ([], [])
  | p :: ps =>
    let (evs, res) := processFile env cfg p
    let (evs2, rest) := processFiles env cfg ps
    (evs ++ evs2, res.toList ++ rest)

/-- The two banner lines printed at main.go lines 29-30. -/
def banner : List MainEvent :=
  [.print "Safeguard - Code Change Analysis Tool v1.0.0\n",
   .print "© 2025 - Licensed under MIT License - See LICENSE file for details\n"]

/-- The tail of `main` after the provider call (main.go lines 100-106). -/
def reportAnalysis (pre : List MainEvent) :
    Except String String → List MainEvent × Outcome
  | .error e => (pre ++ [.print ("Error getting analysis: " ++ e ++ "\n")], .exited 1)
  | .ok analysis =>
    (pre ++ [.print "\n--- Analysis of potential bugs ---\n", .print (analysis ++ "\n")],
     .completed)

/-- The provider `switch` of `main` and the final report (main.go lines
88-107): one provider call for the recognized provider names, a fatal
unknown-provider error otherwise. -/
def dispatchProvider (env : Env) (cfg : Config) (pre : List MainEvent) (prompt : String) :
    List MainEvent × Outcome :=
  if cfg.provider = "anthropic" then
    let (aevs, res) := getAnthropicAnalysis env.marshal env.anth cfg.apiKey cfg.model prompt
    reportAnalysis (pre ++ aevs.map (AEvent.toMain "anthropic" prompt)) res
  else if cfg.provider = "openai" then
    let (oevs, res) := getOpenAIAnalysis env.oai cfg.apiKey cfg.model prompt
    reportAnalysis (pre ++ oevs.map (OEvent.toMain "openai" prompt)) res
  else
    (pre ++ [.print "Error: Unknown provider. Use 'anthropic' or 'openai'\n"], .exited 1)

/-- `main` (main.go lines 27-107), from the banner through flag resolution,
the validation checks, the per-file loop, the aggregate gate, prompt
composition, provider dispatch and the final report. -/
def safeguardMain (env : Env) (cfg0 : Config) : List MainEvent × Outcome :=
  let (evCfg, rc) := resolveConfig env.getenv cfg0
  match rc with
  | none => (banner ++ evCfg, .exited 1)
  | some cfg =>
    if cfg.sourceBranch = "" ∨ cfg.targetBranch = "" then
      (banner ++ evCfg ++ [.print "Error: Source branch and target branch are required\n"],
       .exited 1)
    else if cfg.filePaths = [] then
      (banner ++ evCfg
         ++ [.print "Error: At least one file path is required. Use --interactive flag to select files interactively.\n"],
       .exited 1)
    else
      let (loopEvs, results) := processFiles env cfg cfg.filePaths
      let pre := banner ++ evCfg ++ loopEvs
      if results = [] then
        (pre ++ [.print "No changes detected in any of the selected files.\n"], .exited 0)
      else
        let allDiffs := results.map (·.1)
        let allFilePaths := results.map (·.2)
        let pre := pre
          ++ [.print ("\nDiffs generated successfully for " ++ toString allDiffs.length ++ " files.\n")]
        let combinedDiff := String.intercalate "\n\n" allDiffs
        let prompt := buildPrompt (String.intercalate ", " allFilePaths) combinedDiff
        dispatchProvider env cfg pre prompt

/-! ## Trace observations -/

/-- Is this event an external `git show` invocation? -/
def MainEvent.isFetch : MainEvent → Bool
  | .fetch _ _ => true
  | _ => false

/-- Is this event part of a per-file stage (a fetch or a diff run)? -/
def MainEvent.isPerFile : MainEvent → Bool
  | .fetch _ _ => true
  | .diffRun _ => true
  | _ => false

/-- Is this event an outbound analysis request? -/
def MainEvent.isProviderCall : MainEvent → Bool
  | .providerCall _ _ => true
  | _ => false

/-- The outbound analysis requests of a trace, in order. -/
def providerCalls (t : List MainEvent) : List MainEvent :=
  t.filter MainEvent.isProviderCall

/-- The number of external `git show` invocations in a trace. -/
def fetchCount (t : List MainEvent) : Nat :=
  (t.filter MainEvent.isFetch).length

/-- Is this provider event a network request? -/
def AEvent.isNet : AEvent → Bool
  | .net _ _ => true
  | _ => false

/-- The network requests of an Anthropic provider trace, in order. -/
def netCallsA (t : List AEvent) : List AEvent :=
  t.filter AEvent.isNet

/-- The text printed to standard output by an Anthropic provider trace, as
the ordered list of written strings. -/
def outputOfA (t : List AEvent) : List String :=
  t.filterMap (fun e => match e with | .out s => some s | _ => none)

/-! ## A concrete external world, for witnesses and counterexamples -/

/-- A concrete `GitEnv`: `a.txt` exists with branch-dependent content,
`b.txt` exists with branch-independent content, `c.txt` does not exist
(`git show` fails with a diagnostic on standard error), and `w.txt` exists
but the query also writes a diagnostic to standard error. -/
def demoGit : GitEnv :=
  { home := .ok "/home/user",
    gitShow := fun branch path =>
      if path = "c.txt" then
        { writes := [⟨.stderr, "fatal: path 'c.txt' does not exist in '" ++ branch ++ "'\n"⟩],
          procErr := some "exit status 128" }
      else if path = "b.txt" then
        { writes := [⟨.stdout, "unchanged content\n"⟩], procErr := none }
      else if path = "w.txt" then
        { writes := [⟨.stderr, "warning: perf\n"⟩, ⟨.stdout, "data\n"⟩], procErr := none }
      else
        { writes := [⟨.stdout, "content of " ++ path ++ " at " ++ branch ++ "\n"⟩],
          procErr := none } }

/-- The diff text the concrete external `diff` utility produces for two
distinct contents. -/
def demoDiffText : String := "-foo\n+bar\n"

/-- A concrete external `diff` behaviour: equal contents exit 0 with no
output; distinct contents exit 1 with a diff; scratch-file I/O succeeds. -/
def demoDiffFor (sourceContent targetContent sourceBranch targetBranch filePath : String) :
    DiffEnv :=
  if sourceContent = targetContent then ⟨none, none, none, none, .ok, ""⟩
  else ⟨none, none, none, none, .exitErr 1, demoDiffText⟩

/-- A concrete stand-in for `json.Marshal` of an `AnthropicRequest`. -/
def demoMarshal (r : AnthropicRequest) : String :=
  "marshalled request for model " ++ r.model

/-- A concrete Anthropic transport: HTTP 200 with one content entry. -/
def demoAnth : AnthEnv :=
  { send := fun _ _ => .ok ⟨200, "raw response body"⟩,
    decode := fun _ =>
      .ok ⟨"msg_01", "message", "assistant", [⟨"text", "no issues found"⟩],
           "claude", "end_turn", ""⟩ }

/-- A concrete OpenAI transport: one choice. -/
def demoOai : OpenAIEnv :=
  { createChatCompletion := fun _ _ => .ok ⟨[⟨⟨"assistant", "no issues found"⟩⟩]⟩ }

/-- The concrete external world assembled. -/
def demoEnv : Env :=
  { getenv := fun _ => "", git := demoGit, diffFor := demoDiffFor,
    marshal := demoMarshal, anth := demoAnth, oai := demoOai }

/-- A single-file configuration over the concrete world; `a.txt` yields a
non-empty diff. -/
def demoCfg1 : Config :=
  ⟨["a.txt"], "main", "feat", "claude-3-5-sonnet-20240620", "anthropic", "sk-demo"⟩

/-! ## Helper lemmas -/

/-- `sub` occurs in `s` as a contiguous substring. -/
def containsStr (s sub : String) : Prop :=
  ∃ a b, s = a ++ sub ++ b

/-- `promptT3` up to the cross-file focus item. -/
def promptT3a : String :=
  "\n```\n\nFocus on:\n1. Logic errors\n2. Race conditions\n3. Memory leaks\n4. Security vulnerabilities\n5. API contract violations\n6. Edge cases\n7. Performance issues\n"

/-- `promptT3` after the cross-file focus item. -/
def promptT3b : String :=
  "\n\nProvide a concise analysis listing only potential issues. If there are no issues, state that explicitly. When analyzing multiple files, consider how changes might affect interactions between files."

theorem promptT3_eq : promptT3 = promptT3a ++ crossFileItem ++ promptT3b := rfl

/-- The fixed template suffix places the cross-file focus item in every
composed prompt, whatever the file list and diff. -/
theorem buildPrompt_contains_cross (filePaths diff : String) :
    containsStr (buildPrompt filePaths diff) crossFileItem := by
  refine ⟨promptT1 ++ filePaths ++ promptT2 ++ diff ++ promptT3a, promptT3b, ?_⟩
  simp only [buildPrompt, promptT3_eq, String.append_assoc]

/-! ## C1 -/

/-- C1 (corrected): the cross-file-effects review focus item is present in
the composed prompt for every batch, unconditionally — the template of
`buildPrompt` is a fixed string, with no branching on the number of files;
it is in particular present for a single-file batch. -/
theorem crossFileItem_always_in_prompt (filePaths diff : String) :
    containsStr (buildPrompt filePaths diff) crossFileItem :=
  buildPrompt_contains_cross filePaths diff

/-- C1 counterexample: a concrete run over a batch with exactly one usable
file (`demoCfg1` requests only `a.txt`, which yields a non-empty diff).  The
single composed prompt sent to the provider nevertheless contains the
cross-file-effects focus item, refuting "absent when exactly one usable file
is present". -/
theorem crossFileItem_present_for_single_file_batch :
    providerCalls (safeguardMain demoEnv demoCfg1).1
      = [.providerCall "anthropic"
           (buildPrompt "a.txt" ("=== File: a.txt ===\n" ++ demoDiffText))]
    ∧ containsStr (buildPrompt "a.txt" ("=== File: a.txt ===\n" ++ demoDiffText))
        crossFileItem :=
  ⟨rfl, buildPrompt_contains_cross _ _⟩

/-! ## C5 -/

/-- C5 (corrected): with the scratch-file I/O succeeding, `generateDiff`
treats the external diff utility's termination as success exactly when
`cmd.Run` reported no error (exit status 0) or an `ExitError` with
`ExitCode() ≤ 1` — which covers exit status 1, but also `ExitCode() = -1`,
Go's report for a signal-terminated process; every exit status ≥ 2 and
every failure to run the utility at all yield a `DiffError`. -/
theorem diff_exit_status_handling (env : DiffEnv)
    (sourceContent targetContent sourceBranch targetBranch filePath : String)
    (h1 : env.createSourceErr = none) (h2 : env.createTargetErr = none)
    (h3 : env.writeSourceErr = none) (h4 : env.writeTargetErr = none) :
    ((generateDiff env sourceContent targetContent sourceBranch targetBranch filePath).2
        = .ok env.diffStdout
      ↔ env.runResult = .ok ∨ ∃ c, env.runResult = .exitErr c ∧ c ≤ 1)
    ∧ ((∃ c, env.runResult = .exitErr c ∧ 1 < c) ∨ (∃ m, env.runResult = .startErr m) →
        ∃ e, (generateDiff env sourceContent targetContent sourceBranch targetBranch filePath).2
          = .error e) := by
  cases hr : env.runResult with
  | ok =>
    refine ⟨by simp [generateDiff, h1, h2, h3, h4, hr], ?_⟩
    rintro (⟨c, hc, _⟩ | ⟨m, hm⟩)
    · exact absurd hc (by simp)
    · exact absurd hm (by simp)
  | exitErr c =>
    rcases lt_or_le 1 c with hc | hc
    · refine ⟨?_, fun _ => ⟨"diff command failed: exit status " ++ toString c,
        by simp [generateDiff, h1, h2, h3, h4, hr, hc]⟩⟩
      constructor
      · intro h
        exfalso
        revert h
        simp [generateDiff, h1, h2, h3, h4, hr, hc]
      · rintro (h | ⟨c', hc', hle⟩)
        · exact absurd h (by simp)
        · rw [RunResult.exitErr.injEq] at hc'
          omega
    · have hcn : ¬ (c > 1) := by omega
      refine ⟨?_, ?_⟩
      · constructor
        · intro _
          exact Or.inr ⟨c, rfl, hc⟩
        · intro _
          simp [generateDiff, h1, h2, h3, h4, hr, hcn]
      · rintro (⟨c', hc', hlt⟩ | ⟨m, hm⟩)
        · rw [RunResult.exitErr.injEq] at hc'
          omega
        · exact absurd hm (by simp)
  | startErr m =>
    refine ⟨?_, fun _ => ⟨"diff command failed: " ++ m,
      by simp [generateDiff, h1, h2, h3, h4, hr]⟩⟩
    constructor
    · intro h
      exfalso
      revert h
      simp [generateDiff, h1, h2, h3, h4, hr]
    · rintro (h | ⟨c', hc', _⟩)
      · exact absurd h (by simp)
      · exact absurd hc' (by simp)

/-- Witness for C5 at concrete inputs: exit status 1 is a success returning
the captured output, and exit status 2 is a `DiffError`. -/
theorem diff_exit_status_handling_witness :
    ((generateDiff ⟨none, none, none, none, .exitErr 1, "d"⟩ "a" "b" "s" "t" "f").2 = .ok "d"
      ↔ RunResult.exitErr 1 = .ok ∨ ∃ c, RunResult.exitErr 1 = .exitErr c ∧ c ≤ 1)
    ∧ ∃ e, (generateDiff ⟨none, none, none, none, .exitErr 2, "d"⟩ "a" "b" "s" "t" "f").2
        = .error e :=
  ⟨(diff_exit_status_handling ⟨none, none, none, none, .exitErr 1, "d"⟩
      "a" "b" "s" "t" "f" rfl rfl rfl rfl).1,
   (diff_exit_status_handling ⟨none, none, none, none, .exitErr 2, "d"⟩
      "a" "b" "s" "t" "f" rfl rfl rfl rfl).2
     (Or.inl ⟨2, rfl, by omega⟩)⟩

/-- C5 counterexample: a diff utility terminated abnormally (by a signal) is
reported by Go as an `ExitError` with `ExitCode() = -1`; since `-1 > 1` is
false, main.go line 235 treats it as success and returns the partial
captured output instead of a `DiffError`. -/
theorem signal_termination_treated_as_success :
    (generateDiff ⟨none, none, none, none, .exitErr (-1), "partial output"⟩
        "a" "b" "main" "feat" "a.txt").2 = .ok "partial output" :=
  rfl

/-! ## C6 -/

/-- C6 (confirmed): for both provider variants, an empty credential yields
the missing-credential error immediately, with no network request issued,
for every model id, prompt, transport and marshaller. -/
theorem empty_credential_no_network (marshal : AnthropicRequest → String)
    (aenv : AnthEnv) (oenv : OpenAIEnv) (model prompt : String) :
    (getAnthropicAnalysis marshal aenv "" model prompt).2
        = .error "Anthropic API key is required"
    ∧ netCallsA (getAnthropicAnalysis marshal aenv "" model prompt).1 = []
    ∧ getOpenAIAnalysis oenv "" model prompt = ([], .error "OpenAI API key is required") := by
  refine ⟨rfl, rfl, rfl⟩

/-! ## C7 -/

/-- C7 (confirmed): for an Anthropic call with a non-empty credential whose
transport returns a response, a non-2xx status yields an error carrying that
status (and no analysis text), a 2xx response decoding to an empty content
list yields the empty-response error, and a 2xx response with a non-empty
content list returns exactly the text of the first content entry. -/
theorem anthropic_response_handling (marshal : AnthropicRequest → String) (env : AnthEnv)
    (apiKey model prompt : String) (hk : apiKey ≠ "") (resp : HttpResponse)
    (hsend : env.send (anthropicHeaders apiKey) (marshal (anthReq model prompt)) = .ok resp) :
    (resp.statusCode < 200 ∨ 300 ≤ resp.statusCode →
      (getAnthropicAnalysis marshal env apiKey model prompt).2
        = .error ("API request failed with status " ++ toString resp.statusCode))
    ∧ (∀ r, ¬(resp.statusCode < 200 ∨ 300 ≤ resp.statusCode) →
        env.decode resp.body = .ok r → r.content = [] →
        (getAnthropicAnalysis marshal env apiKey model prompt).2
          = .error "empty response from Anthropic")
    ∧ (∀ r entry rest, ¬(resp.statusCode < 200 ∨ 300 ≤ resp.statusCode) →
        env.decode resp.body = .ok r → r.content = entry :: rest →
        (getAnthropicAnalysis marshal env apiKey model prompt).2 = .ok entry.text) := by
  refine ⟨fun hst => ?_, fun r hst hdec hc => ?_, fun r entry rest hst hdec hc => ?_⟩
  · simp [getAnthropicAnalysis, hk, hsend, hst]
  · simp [getAnthropicAnalysis, hk, hsend, hst, hdec, hc]
  · simp [getAnthropicAnalysis, hk, hsend, hst, hdec, hc]

/-- Witness for C7 at a concrete input: a 200 response whose decoded content
list has one entry returns that entry's text. -/
theorem anthropic_response_handling_witness :
    ("sk-demo" : String) ≠ ""
    ∧ (getAnthropicAnalysis demoMarshal demoAnth "sk-demo" "claude" "p").2
        = .ok "no issues found" :=
  ⟨by decide,
   (anthropic_response_handling demoMarshal demoAnth "sk-demo" "claude" "p" (by decide)
      ⟨200, "raw response body"⟩ rfl).2.2
     ⟨"msg_01", "message", "assistant", [⟨"text", "no issues found"⟩], "claude", "end_turn", ""⟩
     ⟨"text", "no issues found"⟩ [] (by decide) rfl rfl⟩

/-! ## C9 -/

/-- For a non-empty credential the Anthropic call's trace is a fixed head —
whose sixth element prints the `x-api-key` header, credential included —
then the network request, then printed output only. -/
theorem anthropic_trace_shape (marshal : AnthropicRequest → String) (env : AnthEnv)
    (apiKey model prompt : String) (hk : apiKey ≠ "") :
    ∃ extra : List AEvent,
      (getAnthropicAnalysis marshal env apiKey model prompt).1
        = [.out "\nStarting Anthropic API analysis...\n",
           .out ("\nRequest payload: " ++ marshal (anthReq model prompt) ++ "\n"),
           .out "\nSending request to Anthropic API...\n",
           .out "Headers:\n",
           .out (headerLine ("Content-Type", "application/json")),
           .out (headerLine ("X-Api-Key", apiKey)),
           .out (headerLine ("Anthropic-Version", "2023-06-01")),
           .net (anthropicHeaders apiKey) (marshal (anthReq model prompt))] ++ extra
      ∧ ∀ e ∈ extra, ∃ s, e = .out s := by
  rcases hs : env.send (anthropicHeaders apiKey) (marshal (anthReq model prompt)) with e | resp
  · refine ⟨[], ?_, by simp⟩
    simp only [getAnthropicAnalysis, if_neg hk]
    rw [hs]
    simp [anthropicHeaders, headerLine]
  · by_cases hst : resp.statusCode < 200 ∨ 300 ≤ resp.statusCode
    · refine ⟨[.out ("API Error: Status " ++ toString resp.statusCode
          ++ "\nResponse: " ++ resp.body ++ "\n")], ?_, by simp⟩
      simp only [getAnthropicAnalysis, if_neg hk]
      rw [hs]
      simp [hst, anthropicHeaders, headerLine]
    · refine ⟨[.out ("Response body: " ++ resp.body ++ "\n")], ?_, by simp⟩
      simp only [getAnthropicAnalysis, if_neg hk]
      rw [hs]
      rcases hdec : env.decode resp.body with e | result
      · simp [hst, hdec, anthropicHeaders, headerLine]
      · rcases hc : result.content with _ | ⟨entry, rest⟩
        · simp [hst, hdec, hc, anthropicHeaders, headerLine]
        · simp [hst, hdec, hc, anthropicHeaders, headerLine]

/-- The printed header line determines the credential. -/
theorem headerLine_key_inj {k1 k2 : String}
    (h : headerLine ("X-Api-Key", k1) = headerLine ("X-Api-Key", k2)) : k1 = k2 := by
  have hd := congrArg String.data h
  simp only [headerLine, String.data_append, List.append_assoc] at hd
  apply String.ext
  have h1 := List.append_cancel_left hd
  have h2 := List.append_cancel_left h1
  have h3 := List.append_cancel_left h2
  exact List.append_cancel_right h3

/-- C9 (confirmed): with a non-empty credential, the Anthropic call prints
the credential (inside the `x-api-key` debug header line) to standard output
before the network request is issued, and the printed output is therefore
not independent of the secret: two calls differing only in the credential
print different output. -/
theorem credential_leaked_to_output_before_request
    (marshal : AnthropicRequest → String) (env : AnthEnv) (model prompt : String) :
    (∀ apiKey, apiKey ≠ "" →
      ∃ pre post,
        (getAnthropicAnalysis marshal env apiKey model prompt).1
          = pre ++ [AEvent.out (headerLine ("X-Api-Key", apiKey))] ++ post
        ∧ netCallsA pre = []
        ∧ netCallsA post ≠ [])
    ∧ (∀ k1 k2, k1 ≠ "" → k2 ≠ "" → k1 ≠ k2 →
        outputOfA (getAnthropicAnalysis marshal env k1 model prompt).1
          ≠ outputOfA (getAnthropicAnalysis marshal env k2 model prompt).1) := by
  constructor
  · intro apiKey hk
    obtain ⟨extra, htr, hextra⟩ := anthropic_trace_shape marshal env apiKey model prompt hk
    refine ⟨[.out "\nStarting Anthropic API analysis...\n",
             .out ("\nRequest payload: " ++ marshal (anthReq model prompt) ++ "\n"),
             .out "\nSending request to Anthropic API...\n",
             .out "Headers:\n",
             .out (headerLine ("Content-Type", "application/json"))],
            [.out (headerLine ("Anthropic-Version", "2023-06-01")),
             .net (anthropicHeaders apiKey) (marshal (anthReq model prompt))] ++ extra,
            ?_, rfl, ?_⟩
    · rw [htr]; simp
    · simp [netCallsA, AEvent.isNet]
  · intro k1 k2 h1 h2 hne heq
    obtain ⟨e1, ht1, _⟩ := anthropic_trace_shape marshal env k1 model prompt h1
    obtain ⟨e2, ht2, _⟩ := anthropic_trace_shape marshal env k2 model prompt h2
    rw [ht1, ht2] at heq
    have h5 := congrArg (fun l => l[5]?) heq
    simp only [outputOfA, List.filterMap_append, List.filterMap_cons, List.filterMap_nil,
      List.getElem?_append, List.getElem?_cons_zero, List.getElem?_cons_succ] at h5
    exact hne (headerLine_key_inj (by simpa using h5))

/-- Witness for C9 at concrete inputs: with the demo transport, the trace of
a call with key `sk-1` prints the key before the request, and calls with
keys `sk-1` and `sk-2` print different output. -/
theorem credential_leaked_to_output_before_request_witness :
    (∃ pre post,
        (getAnthropicAnalysis demoMarshal demoAnth "sk-1" "m" "p").1
          = pre ++ [AEvent.out (headerLine ("X-Api-Key", "sk-1"))] ++ post
        ∧ netCallsA pre = []
        ∧ netCallsA post ≠ [])
    ∧ outputOfA (getAnthropicAnalysis demoMarshal demoAnth "sk-1" "m" "p").1
        ≠ outputOfA (getAnthropicAnalysis demoMarshal demoAnth "sk-2" "m" "p").1 :=
  ⟨(credential_leaked_to_output_before_request demoMarshal demoAnth "m" "p").1
      "sk-1" (by decide),
   (credential_leaked_to_output_before_request demoMarshal demoAnth "m" "p").2
      "sk-1" "sk-2" (by decide) (by decide) (by decide)⟩

/-! ## C10 -/

/-- Buffer concatenation splits over a split of the write list. -/
theorem combinedOutput_append (ws1 ws2 : List WriteEvent) :
    combinedOutput (ws1 ++ ws2) = combinedOutput ws1 ++ combinedOutput ws2 := by
  induction ws1 with
  | nil =>
    apply String.ext
    simp [combinedOutput, String.data_append]
  | cons w ws ih =>
    show w.text ++ combinedOutput (ws ++ ws2) = w.text ++ combinedOutput ws ++ combinedOutput ws2
    rw [ih, String.append_assoc]

/-- Every single write's text occurs contiguously in the combined output. -/
theorem mem_text_in_combinedOutput (ws : List WriteEvent) (w : WriteEvent) (hw : w ∈ ws) :
    containsStr (combinedOutput ws) w.text := by
  obtain ⟨s, t, rfl⟩ := List.append_of_mem hw
  refine ⟨combinedOutput s, combinedOutput t, ?_⟩
  rw [combinedOutput_append]
  simp only [combinedOutput, String.append_assoc]

/-- C10 (confirmed): a successful fetch returns exactly the combined
standard output and standard error of the `git show` process — so any text
the process wrote to standard error (each write of the process) occurs in
the returned content — and a failed fetch returns an error message embedding
that same combined output. -/
theorem fetch_returns_combined_output (env : GitEnv) (filePath branch fp : String)
    (hfp : expandHome env filePath = .ok fp) :
    ((env.gitShow branch fp).procErr = none →
      (getFileFromBranch env filePath branch).2
        = .ok (combinedOutput (env.gitShow branch fp).writes)
      ∧ ∀ w ∈ (env.gitShow branch fp).writes,
          containsStr (combinedOutput (env.gitShow branch fp).writes) w.text)
    ∧ (∀ e, (env.gitShow branch fp).procErr = some e →
        (getFileFromBranch env filePath branch).2
          = .error ("git show failed: " ++ e ++ " - "
              ++ combinedOutput (env.gitShow branch fp).writes)) := by
  constructor
  · intro hok
    refine ⟨?_, fun w hw => mem_text_in_combinedOutput _ w hw⟩
    simp [getFileFromBranch, hfp, gitShowOutcome, hok]
  · intro e he
    simp [getFileFromBranch, hfp, gitShowOutcome, he]

/-- Witness for C10 at concrete inputs: fetching `w.txt` succeeds and its
content merges the standard-error diagnostic with the standard output;
fetching `c.txt` fails with the combined output embedded in the error. -/
theorem fetch_returns_combined_output_witness :
    (getFileFromBranch demoGit "w.txt" "main").2
        = .ok (combinedOutput (demoGit.gitShow "main" "w.txt").writes)
    ∧ containsStr (combinedOutput (demoGit.gitShow "main" "w.txt").writes) "warning: perf\n"
    ∧ (getFileFromBranch demoGit "w.txt" "main").2 = .ok "warning: perf\ndata\n"
    ∧ (getFileFromBranch demoGit "c.txt" "main").2
        = .error ("git show failed: " ++ "exit status 128" ++ " - "
            ++ combinedOutput (demoGit.gitShow "main" "c.txt").writes) :=
  ⟨((fetch_returns_combined_output demoGit "w.txt" "main" "w.txt" rfl).1 rfl).1,
   ((fetch_returns_combined_output demoGit "w.txt" "main" "w.txt" rfl).1 rfl).2
     ⟨.stderr, "warning: perf\n"⟩ (by decide),
   rfl,
   (fetch_returns_combined_output demoGit "c.txt" "main" "c.txt" rfl).2
     "exit status 128" rfl⟩

/-! ## C8 -/

theorem trimSpace_empty : trimSpace "" = "" := rfl

/-- C8 (confirmed): when the two fetched blobs are equal and the external
diff utility behaves per its interface contract on equal inputs — exit
status 0, no output, scratch I/O succeeding — `generateDiff` succeeds with
the empty string, and the per-file stage records the file as unchanged
(no usable result, the no-changes line printed) rather than as an error. -/
theorem equal_blobs_empty_diff_recorded_unchanged (env : Env) (cfg : Config)
    (path content : String)
    (hfs : (getFileFromBranch env.git path cfg.sourceBranch).2 = .ok content)
    (hft : (getFileFromBranch env.git path cfg.targetBranch).2 = .ok content)
    (hd : env.diffFor content content cfg.sourceBranch cfg.targetBranch path
        = ⟨none, none, none, none, .ok, ""⟩) :
    (generateDiff (env.diffFor content content cfg.sourceBranch cfg.targetBranch path)
        content content cfg.sourceBranch cfg.targetBranch path).2 = .ok ""
    ∧ (processFile env cfg path).2 = none
    ∧ MainEvent.print ("No changes detected in " ++ path ++ "\n")
        ∈ (processFile env cfg path).1 := by
  rcases hge1 : getFileFromBranch env.git path cfg.sourceBranch with ⟨g1, r1⟩
  rw [hge1] at hfs
  simp only at hfs
  subst hfs
  rcases hge2 : getFileFromBranch env.git path cfg.targetBranch with ⟨g2, r2⟩
  rw [hge2] at hft
  simp only at hft
  subst hft
  refine ⟨by rw [hd]; rfl, ?_, ?_⟩
  · simp [processFile, hge1, hge2, hd, generateDiff, trimSpace_empty]
  · simp [processFile, hge1, hge2, hd, generateDiff, trimSpace_empty]

theorem mem_append3 {α : Type} {e : α} {l1 l2 l3 : List α}
    (he : e ∈ l1 ++ l2 ++ l3) : e ∈ l1 ∨ e ∈ l2 ∨ e ∈ l3 := by
  rcases List.mem_append.1 he with h | h
  · rcases List.mem_append.1 h with h | h
    · exact Or.inl h
    · exact Or.inr (Or.inl h)
  · exact Or.inr (Or.inr h)

/-- Witness for C8 at concrete inputs: `b.txt` has the same content on both
branches of the demo world; it is recorded as unchanged. -/
theorem equal_blobs_empty_diff_recorded_unchanged_witness :
    (generateDiff (demoEnv.diffFor "unchanged content\n" "unchanged content\n" "main" "feat" "b.txt")
        "unchanged content\n" "unchanged content\n" "main" "feat" "b.txt").2 = .ok ""
    ∧ (processFile demoEnv demoCfg1 "b.txt").2 = none
    ∧ MainEvent.print ("No changes detected in " ++ "b.txt" ++ "\n")
        ∈ (processFile demoEnv demoCfg1 "b.txt").1 :=
  equal_blobs_empty_diff_recorded_unchanged demoEnv demoCfg1 "b.txt" "unchanged content\n"
    rfl rfl rfl

/-! ## Orchestrator helper lemmas -/

/-- Events of `getFileFromBranch` map to prints and fetches, never to an
outbound analysis call. -/
theorem gmap_no_providerCall (g : List GEvent) (e : MainEvent)
    (he : e ∈ g.map GEvent.toMain) : e.isProviderCall = false := by
  obtain ⟨ge, _, rfl⟩ := List.mem_map.1 he
  cases ge <;> rfl

/-- No event of a per-file stage is an outbound analysis call. -/
theorem processFile_no_providerCall (env : Env) (cfg : Config) (p : String) :
    ∀ e ∈ (processFile env cfg p).1, e.isProviderCall = false := by
  intro e he
  rcases hge1 : getFileFromBranch env.git p cfg.sourceBranch with ⟨g1, r1⟩
  cases r1 with
  | error e1 =>
    simp only [processFile, hge1] at he
    rcases mem_append3 he with h | h | h
    · obtain rfl := List.mem_singleton.1 h; rfl
    · exact gmap_no_providerCall g1 e h
    · obtain rfl := List.mem_singleton.1 h; rfl
  | ok sourceContent =>
    rcases hge2 : getFileFromBranch env.git p cfg.targetBranch with ⟨g2, r2⟩
    cases r2 with
    | error e2 =>
      simp only [processFile, hge1, hge2] at he
      rcases List.mem_append.1 he with h | h
      · rcases mem_append3 h with h | h | h
        · obtain rfl := List.mem_singleton.1 h; rfl
        · exact gmap_no_providerCall g1 e h
        · exact gmap_no_providerCall g2 e h
      · obtain rfl := List.mem_singleton.1 h; rfl
    | ok targetContent =>
      rcases hgd : generateDiff
          (env.diffFor sourceContent targetContent cfg.sourceBranch cfg.targetBranch p)
          sourceContent targetContent cfg.sourceBranch cfg.targetBranch p with ⟨ran, rd⟩
      have hbase : ∀ e' ∈ ([MainEvent.print ("\nProcessing file: " ++ p ++ "\n")]
          ++ g1.map GEvent.toMain ++ g2.map GEvent.toMain
          ++ (if ran then [MainEvent.diffRun p] else [])), e'.isProviderCall = false := by
        intro e' he'
        rcases List.mem_append.1 he' with h | h
        · rcases mem_append3 h with h | h | h
          · obtain rfl := List.mem_singleton.1 h; rfl
          · exact gmap_no_providerCall g1 e' h
          · exact gmap_no_providerCall g2 e' h
        · cases ran
          · simp at h
          · simp only [if_true] at h
            obtain rfl := List.mem_singleton.1 h; rfl
      cases rd with
      | error ed =>
        simp only [processFile, hge1, hge2, hgd] at he
        rcases List.mem_append.1 he with h | h
        · exact hbase e h
        · obtain rfl := List.mem_singleton.1 h; rfl
      | ok diff =>
        by_cases hne : trimSpace diff ≠ ""
        · simp only [processFile, hge1, hge2, hgd, if_pos hne] at he
          exact hbase e he
        · simp only [processFile, hge1, hge2, hgd, if_neg hne] at he
          rcases List.mem_append.1 he with h | h
          · exact hbase e h
          · obtain rfl := List.mem_singleton.1 h; rfl

/-- No event of the whole per-file loop is an outbound analysis call. -/
theorem processFiles_no_providerCall (env : Env) (cfg : Config) (ps : List String) :
    ∀ e ∈ (processFiles env cfg ps).1, e.isProviderCall = false := by
  induction ps with
  | nil => intro e he; simp [processFiles] at he
  | cons p ps ih =>
    intro e he
    simp only [processFiles] at he
    rcases List.mem_append.1 he with he | he
    · exact processFile_no_providerCall env cfg p e he
    · exact ih e he

/-- The usable results of the loop are the per-file results filtered, in
input order: each file contributes independently of the others. -/
theorem processFiles_results (env : Env) (cfg : Config) (ps : List String) :
    (processFiles env cfg ps).2 = ps.filterMap (fun p => (processFile env cfg p).2) := by
  induction ps with
  | nil => rfl
  | cons p ps ih =>
    simp only [processFiles, List.filterMap_cons, ih]
    cases (processFile env cfg p).2 <;> simp

/-- A usable per-file result carries the file's own path and its
`"=== File: <path> ===\n"`-headed section. -/
theorem processFile_result_shape (env : Env) (cfg : Config) (p : String)
    (entry : String × String) (h : (processFile env cfg p).2 = some entry) :
    entry.2 = p ∧ ∃ d, trimSpace d ≠ "" ∧ entry.1 = "=== File: " ++ p ++ " ===\n" ++ d := by
  rcases hge1 : getFileFromBranch env.git p cfg.sourceBranch with ⟨g1, r1⟩
  cases r1 with
  | error e1 => simp [processFile, hge1] at h
  | ok sourceContent =>
    rcases hge2 : getFileFromBranch env.git p cfg.targetBranch with ⟨g2, r2⟩
    cases r2 with
    | error e2 => simp [processFile, hge1, hge2] at h
    | ok targetContent =>
      rcases hgd : generateDiff
          (env.diffFor sourceContent targetContent cfg.sourceBranch cfg.targetBranch p)
          sourceContent targetContent cfg.sourceBranch cfg.targetBranch p with ⟨ran, rd⟩
      cases rd with
      | error ed => simp [processFile, hge1, hge2, hgd] at h
      | ok diff =>
        by_cases hne : trimSpace diff ≠ ""
        · simp only [processFile, hge1, hge2, hgd, if_pos hne, Option.some.injEq] at h
          subst h
          exact ⟨rfl, diff, hne, rfl⟩
        · simp [processFile, hge1, hge2, hgd, if_neg hne] at h

/-- Flag resolution with an explicit model and credential is the identity on
the configuration. -/
theorem resolveConfig_known (g : String → String) (cfg : Config)
    (hm : cfg.model ≠ "") (hk : cfg.apiKey ≠ "") :
    resolveConfig g cfg = ([.print ("Using model: " ++ cfg.model ++ "\n")], some cfg) := by
  simp [resolveConfig, hm, hk]

/-- Flag resolution only prints. -/
theorem resolveConfig_events_print (g : String → String) (cfg : Config) :
    ∀ e ∈ (resolveConfig g cfg).1, ∃ s, e = .print s := by
  intro e he
  by_cases hm : cfg.model = "" <;> by_cases hk : cfg.apiKey = "" <;>
    by_cases ha : cfg.provider = "anthropic" <;> by_cases ho : cfg.provider = "openai" <;>
    by_cases hA : g "ANTHROPIC_API_KEY" = "" <;> by_cases hO : g "OPENAI_API_KEY" = "" <;>
    simp [resolveConfig, hm, hk, ha, ho, hA, hO] at he <;>
    ((rcases he with rfl | rfl) <;> exact ⟨_, rfl⟩)

/-- The post-provider report only appends printed output. -/
theorem reportAnalysis_trace (pre : List MainEvent) (res : Except String String) :
    ∃ tail, (reportAnalysis pre res).1 = pre ++ tail ∧ ∀ e ∈ tail, ∃ s, e = .print s := by
  cases res with
  | error e =>
    refine ⟨[.print ("Error getting analysis: " ++ e ++ "\n")], rfl, ?_⟩
    intro x hx
    obtain rfl := List.mem_singleton.1 hx
    exact ⟨_, rfl⟩
  | ok analysis =>
    refine ⟨[.print "\n--- Analysis of potential bugs ---\n", .print (analysis ++ "\n")],
      rfl, ?_⟩
    intro x hx
    simp only [List.mem_cons, List.not_mem_nil, or_false, List.mem_singleton] at hx
    rcases hx with rfl | rfl <;> exact ⟨_, rfl⟩

/-- A list of printed lines contains no analysis call, no per-file event and
no fetch. -/
theorem print_only_filters {l : List MainEvent} (h : ∀ e ∈ l, ∃ s, e = .print s) :
    l.filter MainEvent.isProviderCall = [] ∧ l.filter MainEvent.isPerFile = []
    ∧ l.filter MainEvent.isFetch = [] := by
  refine ⟨?_, ?_, ?_⟩ <;>
    (rw [List.filter_eq_nil_iff]
     intro a ha
     obtain ⟨s, rfl⟩ := h a ha
     simp [MainEvent.isProviderCall, MainEvent.isPerFile, MainEvent.isFetch])

/-- The banner only prints. -/
theorem banner_print : ∀ e ∈ banner, ∃ s, e = .print s := by
  intro e he
  simp only [banner, List.mem_cons, List.not_mem_nil, or_false] at he
  rcases he with rfl | rfl <;> exact ⟨_, rfl⟩

theorem print_only_append {l1 l2 : List MainEvent}
    (h1 : ∀ e ∈ l1, ∃ s, e = .print s) (h2 : ∀ e ∈ l2, ∃ s, e = .print s) :
    ∀ e ∈ l1 ++ l2, ∃ s, e = .print s := by
  intro e he
  rcases List.mem_append.1 he with h | h
  · exact h1 e h
  · exact h2 e h

theorem providerCalls_append (l1 l2 : List MainEvent) :
    providerCalls (l1 ++ l2) = providerCalls l1 ++ providerCalls l2 := by
  simp [providerCalls, List.filter_append]

theorem providerCalls_processFiles (env : Env) (cfg : Config) (ps : List String) :
    providerCalls (processFiles env cfg ps).1 = [] :=
  List.filter_eq_nil_iff.2 fun a ha => by
    simp [processFiles_no_providerCall env cfg ps a ha]

/-- With a non-empty key, the mapped Anthropic events contain exactly one
outbound analysis call and no per-file event. -/
theorem anthropic_mapped (marshal : AnthropicRequest → String) (env : AnthEnv)
    (k model prompt pr pm : String) (hk : k ≠ "") :
    ((getAnthropicAnalysis marshal env k model prompt).1.map (AEvent.toMain pr pm)).filter
        MainEvent.isProviderCall = [.providerCall pr pm]
    ∧ ((getAnthropicAnalysis marshal env k model prompt).1.map (AEvent.toMain pr pm)).filter
        MainEvent.isPerFile = [] := by
  obtain ⟨extra, htr, hex⟩ := anthropic_trace_shape marshal env k model prompt hk
  rw [htr]
  have hmap : ∀ e ∈ extra.map (AEvent.toMain pr pm), ∃ s, e = .print s := by
    intro e he
    obtain ⟨a, ha, rfl⟩ := List.mem_map.1 he
    obtain ⟨s, rfl⟩ := hex a ha
    exact ⟨s, rfl⟩
  obtain ⟨hp1, hp2, _⟩ := print_only_filters hmap
  constructor
  · simp [List.filter_append, AEvent.toMain, MainEvent.isProviderCall, hp1]
  · simp [List.filter_append, AEvent.toMain, MainEvent.isPerFile, hp2]

/-- With a non-empty key, the OpenAI call's trace is exactly the one network
request of the go-openai client. -/
theorem openai_trace_shape (env : OpenAIEnv) (k model prompt : String) (hk : k ≠ "") :
    (getOpenAIAnalysis env k model prompt).1 = [.net k (oaiReq model prompt)] := by
  simp only [getOpenAIAnalysis, if_neg hk]
  rcases hc : env.createChatCompletion k (oaiReq model prompt) with e | resp
  · rfl
  · rcases hch : resp.choices with _ | ⟨c, rest⟩ <;> simp [hch]

/-- With a non-empty key, the mapped OpenAI events are exactly one outbound
analysis call. -/
theorem openai_mapped (env : OpenAIEnv) (k model prompt pr pm : String) (hk : k ≠ "") :
    ((getOpenAIAnalysis env k model prompt).1.map (OEvent.toMain pr pm)).filter
        MainEvent.isProviderCall = [.providerCall pr pm]
    ∧ ((getOpenAIAnalysis env k model prompt).1.map (OEvent.toMain pr pm)).filter
        MainEvent.isPerFile = [] := by
  rw [openai_trace_shape env k model prompt hk]
  exact ⟨rfl, rfl⟩

/-- For a recognized provider with a credential, provider dispatch appends a
block containing exactly one outbound analysis call, carrying the composed
prompt, and no per-file event. -/
theorem dispatchProvider_trace (env : Env) (cfg : Config) (pre : List MainEvent)
    (prompt : String) (hk : cfg.apiKey ≠ "")
    (hp : cfg.provider = "anthropic" ∨ cfg.provider = "openai") :
    ∃ post, (dispatchProvider env cfg pre prompt).1 = pre ++ post
      ∧ post.filter MainEvent.isPerFile = []
      ∧ providerCalls post = [.providerCall cfg.provider prompt] := by
  rcases hp with hpa | hpo
  · rcases hga : getAnthropicAnalysis env.marshal env.anth cfg.apiKey cfg.model prompt
        with ⟨aevs, res⟩
    obtain ⟨hc1, hc2⟩ := anthropic_mapped env.marshal env.anth cfg.apiKey cfg.model prompt
      "anthropic" prompt hk
    rw [hga] at hc1 hc2
    simp only at hc1 hc2
    obtain ⟨tail, htail, htailp⟩ := reportAnalysis_trace
      (pre ++ aevs.map (AEvent.toMain "anthropic" prompt)) res
    obtain ⟨ht1, ht2, _⟩ := print_only_filters htailp
    have hd : dispatchProvider env cfg pre prompt
        = reportAnalysis (pre ++ aevs.map (AEvent.toMain "anthropic" prompt)) res := by
      simp [dispatchProvider, hpa, hga]
    refine ⟨aevs.map (AEvent.toMain "anthropic" prompt) ++ tail, ?_, ?_, ?_⟩
    · rw [hd, htail, List.append_assoc]
    · rw [List.filter_append, hc2, ht2]
      rfl
    · rw [providerCalls, List.filter_append, hc1, ht1, hpa]
      rfl
  · rcases hgo : getOpenAIAnalysis env.oai cfg.apiKey cfg.model prompt with ⟨oevs, res⟩
    obtain ⟨hc1, hc2⟩ := openai_mapped env.oai cfg.apiKey cfg.model prompt "openai" prompt hk
    rw [hgo] at hc1 hc2
    simp only at hc1 hc2
    obtain ⟨tail, htail, htailp⟩ := reportAnalysis_trace
      (pre ++ oevs.map (OEvent.toMain "openai" prompt)) res
    obtain ⟨ht1, ht2, _⟩ := print_only_filters htailp
    have hno : cfg.provider ≠ "anthropic" := by rw [hpo]; decide
    have hd : dispatchProvider env cfg pre prompt
        = reportAnalysis (pre ++ oevs.map (OEvent.toMain "openai" prompt)) res := by
      simp [dispatchProvider, hno, hpo, hgo]
    refine ⟨oevs.map (OEvent.toMain "openai" prompt) ++ tail, ?_, ?_, ?_⟩
    · rw [hd, htail, List.append_assoc]
    · rw [List.filter_append, hc2, ht2]
      rfl
    · rw [providerCalls, List.filter_append, hc1, ht1, hpo]
      rfl

/-- An unrecognized provider name is only detected at dispatch: a fatal
error after the per-file stage, with no provider call. -/
theorem dispatchProvider_unknown (env : Env) (cfg : Config) (pre : List MainEvent)
    (prompt : String) (ha : cfg.provider ≠ "anthropic") (ho : cfg.provider ≠ "openai") :
    dispatchProvider env cfg pre prompt
      = (pre ++ [.print "Error: Unknown provider. Use 'anthropic' or 'openai'\n"],
         .exited 1) := by
  simp [dispatchProvider, ha, ho]

/-- The usable results of a run, reconstructed per file. -/
def usableResults (env : Env) (cfg : Config) : List (String × String) :=
  cfg.filePaths.filterMap (fun p => (processFile env cfg p).2)

/-- The prompt composed for a run's batch (main.go lines 85-86): comma-joined
usable paths, and the usable sections joined by blank lines. -/
def batchPrompt (env : Env) (cfg : Config) : String :=
  buildPrompt (String.intercalate ", " ((usableResults env cfg).map (·.2)))
    (String.intercalate "\n\n" ((usableResults env cfg).map (·.1)))

/-- With a complete configuration and at least one usable result, the run is
the banner, the model line, the per-file loop, the summary line, then
provider dispatch on the batch prompt. -/
theorem safeguardMain_reaches_dispatch (env : Env) (cfg : Config)
    (hm : cfg.model ≠ "") (hk : cfg.apiKey ≠ "")
    (hs : cfg.sourceBranch ≠ "") (ht : cfg.targetBranch ≠ "")
    (hf : cfg.filePaths ≠ []) (hnz : usableResults env cfg ≠ []) :
    safeguardMain env cfg
      = dispatchProvider env cfg
          (banner ++ [.print ("Using model: " ++ cfg.model ++ "\n")]
            ++ (processFiles env cfg cfg.filePaths).1
            ++ [.print ("\nDiffs generated successfully for "
                 ++ toString ((usableResults env cfg).map (·.1)).length ++ " files.\n")])
          (batchPrompt env cfg) := by
  rcases hpf : processFiles env cfg cfg.filePaths with ⟨loopEvs, results⟩
  have hr2 : results = usableResults env cfg := by
    have h := processFiles_results env cfg cfg.filePaths
    rw [hpf] at h
    exact h
  subst hr2
  simp only [safeguardMain, resolveConfig_known env.getenv cfg hm hk, hpf]
  simp [hs, ht, hf, hnz, batchPrompt, List.append_assoc]

/-- With a complete configuration and no usable result, the run ends
successfully with the no-changes line and never dispatches a provider. -/
theorem safeguardMain_no_usable (env : Env) (cfg : Config)
    (hm : cfg.model ≠ "") (hk : cfg.apiKey ≠ "")
    (hs : cfg.sourceBranch ≠ "") (ht : cfg.targetBranch ≠ "")
    (hf : cfg.filePaths ≠ []) (hz : usableResults env cfg = []) :
    safeguardMain env cfg
      = (banner ++ [.print ("Using model: " ++ cfg.model ++ "\n")]
          ++ (processFiles env cfg cfg.filePaths).1
          ++ [.print "No changes detected in any of the selected files.\n"], .exited 0) := by
  rcases hpf : processFiles env cfg cfg.filePaths with ⟨loopEvs, results⟩
  have hr2 : results = usableResults env cfg := by
    have h := processFiles_results env cfg cfg.filePaths
    rw [hpf] at h
    exact h
  subst hr2
  simp only [safeguardMain, resolveConfig_known env.getenv cfg hm hk, hpf]
  simp [hs, ht, hf, hz, List.append_assoc]

/-! ## C3 -/

/-- C3 (confirmed): with a valid configuration and at least one usable
result, the run's trace splits into a per-file part with no analysis call
and a terminal part with no per-file event whose analysis calls are exactly
one — carrying the batch prompt built from all usable sections — so the
provider is invoked exactly once, after all per-file stages.  Each usable
entry is one requested file's own `"=== File: <path> ===\n"`-headed section,
and the usable list is the per-file outcomes filtered in input order, so a
failing file excludes only itself. -/
theorem provider_called_once_after_per_file_stages (env : Env) (cfg : Config)
    (hm : cfg.model ≠ "") (hk : cfg.apiKey ≠ "")
    (hs : cfg.sourceBranch ≠ "") (ht : cfg.targetBranch ≠ "")
    (hp : cfg.provider = "anthropic" ∨ cfg.provider = "openai")
    (hnz : usableResults env cfg ≠ []) :
    (∃ pre post,
      (safeguardMain env cfg).1 = pre ++ post
      ∧ providerCalls pre = []
      ∧ post.filter MainEvent.isPerFile = []
      ∧ providerCalls post = [.providerCall cfg.provider (batchPrompt env cfg)]
      ∧ providerCalls (safeguardMain env cfg).1
          = [.providerCall cfg.provider (batchPrompt env cfg)])
    ∧ (∀ entry ∈ usableResults env cfg,
        entry.2 ∈ cfg.filePaths
        ∧ ∃ d, trimSpace d ≠ "" ∧ entry.1 = "=== File: " ++ entry.2 ++ " ===\n" ++ d) := by
  have hf : cfg.filePaths ≠ [] := by
    intro h0
    exact hnz (by rw [usableResults, h0]; rfl)
  constructor
  · obtain ⟨post, hpost, hper, hpc⟩ := dispatchProvider_trace env cfg
      (banner ++ [.print ("Using model: " ++ cfg.model ++ "\n")]
        ++ (processFiles env cfg cfg.filePaths).1
        ++ [.print ("\nDiffs generated successfully for "
             ++ toString ((usableResults env cfg).map (·.1)).length ++ " files.\n")])
      (batchPrompt env cfg) hk hp
    have htr : (safeguardMain env cfg).1
        = (banner ++ [.print ("Using model: " ++ cfg.model ++ "\n")]
            ++ (processFiles env cfg cfg.filePaths).1
            ++ [.print ("\nDiffs generated successfully for "
                 ++ toString ((usableResults env cfg).map (·.1)).length ++ " files.\n")])
          ++ post := by
      rw [safeguardMain_reaches_dispatch env cfg hm hk hs ht hf hnz]
      exact hpost
    have hprepc : providerCalls
        (banner ++ [.print ("Using model: " ++ cfg.model ++ "\n")]
          ++ (processFiles env cfg cfg.filePaths).1
          ++ [.print ("\nDiffs generated successfully for "
               ++ toString ((usableResults env cfg).map (·.1)).length ++ " files.\n")]) = [] := by
      have hl := providerCalls_processFiles env cfg cfg.filePaths
      simp [providerCalls, List.filter_append, banner, MainEvent.isProviderCall] at hl ⊢
      exact hl
    refine ⟨_, post, htr, hprepc, hper, hpc, ?_⟩
    rw [htr, providerCalls_append, hprepc, hpc]
    rfl
  · intro entry hentry
    obtain ⟨p, hp', hsome⟩ := List.mem_filterMap.1 hentry
    obtain ⟨hpath, d, hd, hsec⟩ := processFile_result_shape env cfg p entry hsome
    subst hpath
    exact ⟨hp', d, hd, hsec⟩

/-- A three-file configuration over the concrete world: `a.txt` changed,
`b.txt` unchanged, `c.txt` missing — exactly one usable result. -/
def demoCfg3 : Config :=
  ⟨["a.txt", "b.txt", "c.txt"], "main", "feat", "claude-3-5-sonnet-20240620",
   "anthropic", "sk-demo"⟩

/-- Witness for C3 at concrete inputs: three requested files with one usable
diff; the provider is called exactly once, after the per-file stages, with
the one-section prompt. -/
theorem provider_called_once_after_per_file_stages_witness :
    usableResults demoEnv demoCfg3 ≠ []
    ∧ ((∃ pre post,
        (safeguardMain demoEnv demoCfg3).1 = pre ++ post
        ∧ providerCalls pre = []
        ∧ post.filter MainEvent.isPerFile = []
        ∧ providerCalls post = [.providerCall demoCfg3.provider (batchPrompt demoEnv demoCfg3)]
        ∧ providerCalls (safeguardMain demoEnv demoCfg3).1
            = [.providerCall demoCfg3.provider (batchPrompt demoEnv demoCfg3)])
      ∧ (∀ entry ∈ usableResults demoEnv demoCfg3,
          entry.2 ∈ demoCfg3.filePaths
          ∧ ∃ d, trimSpace d ≠ "" ∧ entry.1 = "=== File: " ++ entry.2 ++ " ===\n" ++ d)) :=
  ⟨by decide,
   provider_called_once_after_per_file_stages demoEnv demoCfg3
     (by decide) (by decide) (by decide) (by decide) (Or.inl rfl) (by decide)⟩

/-! ## C4 -/

/-- C4 (confirmed): with a valid configuration and zero usable results after
processing all files, the run exits with status 0 after printing the
no-changes line, and no provider call occurs. -/
theorem zero_usable_results_no_provider_call (env : Env) (cfg : Config)
    (hm : cfg.model ≠ "") (hk : cfg.apiKey ≠ "")
    (hs : cfg.sourceBranch ≠ "") (ht : cfg.targetBranch ≠ "")
    (hf : cfg.filePaths ≠ []) (hz : usableResults env cfg = []) :
    (safeguardMain env cfg).2 = .exited 0
    ∧ providerCalls (safeguardMain env cfg).1 = []
    ∧ MainEvent.print "No changes detected in any of the selected files.\n"
        ∈ (safeguardMain env cfg).1 := by
  rw [safeguardMain_no_usable env cfg hm hk hs ht hf hz]
  refine ⟨rfl, ?_, ?_⟩
  · have hl := providerCalls_processFiles env cfg cfg.filePaths
    simp [providerCalls, List.filter_append, banner, MainEvent.isProviderCall] at hl ⊢
    exact hl
  · simp

/-- A configuration over the concrete world in which no file yields a
usable diff: `b.txt` is unchanged and `c.txt` fails to fetch. -/
def demoCfg4 : Config :=
  ⟨["b.txt", "c.txt"], "main", "feat", "claude-3-5-sonnet-20240620", "anthropic", "sk-demo"⟩

/-- Witness for C4 at concrete inputs. -/
theorem zero_usable_results_no_provider_call_witness :
    usableResults demoEnv demoCfg4 = []
    ∧ (safeguardMain demoEnv demoCfg4).2 = .exited 0
    ∧ providerCalls (safeguardMain demoEnv demoCfg4).1 = []
    ∧ MainEvent.print "No changes detected in any of the selected files.\n"
        ∈ (safeguardMain demoEnv demoCfg4).1 :=
  ⟨by decide,
   zero_usable_results_no_provider_call demoEnv demoCfg4
     (by decide) (by decide) (by decide) (by decide) (by decide) (by decide)⟩

/-! ## C2 -/

/-- The configuration errors the run rejects before its per-file loop:
missing revisions, missing file list, or a missing credential for a
recognized provider. -/
def configRejected (env : Env) (cfg : Config) : Prop :=
  cfg.sourceBranch = "" ∨ cfg.targetBranch = "" ∨ cfg.filePaths = []
  ∨ (cfg.apiKey = "" ∧ cfg.provider = "anthropic" ∧ env.getenv "ANTHROPIC_API_KEY" = "")
  ∨ (cfg.apiKey = "" ∧ cfg.provider = "openai" ∧ env.getenv "OPENAI_API_KEY" = "")

/-- A missing credential for a recognized provider is rejected during flag
resolution. -/
theorem resolveConfig_rejected_anth (g : String → String) (cfg : Config)
    (hk : cfg.apiKey = "") (hp : cfg.provider = "anthropic")
    (hA : g "ANTHROPIC_API_KEY" = "") : (resolveConfig g cfg).2 = none := by
  by_cases hm : cfg.model = "" <;> simp [resolveConfig, hm, hk, hp, hA]

theorem resolveConfig_rejected_oai (g : String → String) (cfg : Config)
    (hk : cfg.apiKey = "") (hp : cfg.provider = "openai")
    (hO : g "OPENAI_API_KEY" = "") : (resolveConfig g cfg).2 = none := by
  by_cases hm : cfg.model = "" <;> simp [resolveConfig, hm, hk, hp, hO]

/-- Flag resolution never changes the file list, the revisions or the
provider name. -/
theorem resolveConfig_preserves (g : String → String) (cfg cfg' : Config)
    (h : (resolveConfig g cfg).2 = some cfg') :
    cfg'.sourceBranch = cfg.sourceBranch ∧ cfg'.targetBranch = cfg.targetBranch
    ∧ cfg'.filePaths = cfg.filePaths ∧ cfg'.provider = cfg.provider := by
  by_cases hm : cfg.model = "" <;> by_cases hk : cfg.apiKey = "" <;>
    by_cases ha : cfg.provider = "anthropic" <;> by_cases ho : cfg.provider = "openai" <;>
    by_cases hA : g "ANTHROPIC_API_KEY" = "" <;> by_cases hO : g "OPENAI_API_KEY" = "" <;>
    simp [resolveConfig, hm, hk, ha, ho, hA, hO] at h <;>
    (subst h; simp [ha, ho])

theorem single_print (s : String) : ∀ e ∈ [MainEvent.print s], ∃ t, e = .print t := by
  intro e he
  obtain rfl := List.mem_singleton.1 he
  exact ⟨s, rfl⟩

/-- After flag resolution succeeds and the validation checks pass, the run
is the banner, the resolution output, the per-file loop and then either the
no-changes exit or provider dispatch, by the aggregate gate. -/
theorem safeguardMain_after_resolve (env : Env) (cfg cfg' : Config) (evc : List MainEvent)
    (hrc : resolveConfig env.getenv cfg = (evc, some cfg'))
    (hb1 : ¬(cfg'.sourceBranch = "" ∨ cfg'.targetBranch = ""))
    (hfp0 : cfg'.filePaths ≠ []) :
    (usableResults env cfg' = [] →
      safeguardMain env cfg
        = (banner ++ evc ++ (processFiles env cfg' cfg'.filePaths).1
            ++ [.print "No changes detected in any of the selected files.\n"], .exited 0))
    ∧ (usableResults env cfg' ≠ [] →
      safeguardMain env cfg
        = dispatchProvider env cfg'
            (banner ++ evc ++ (processFiles env cfg' cfg'.filePaths).1
              ++ [.print ("\nDiffs generated successfully for "
                   ++ toString ((usableResults env cfg').map (·.1)).length ++ " files.\n")])
            (batchPrompt env cfg')) := by
  rcases hpf : processFiles env cfg' cfg'.filePaths with ⟨loopEvs, results⟩
  have hr2 : results = usableResults env cfg' := by
    have h := processFiles_results env cfg' cfg'.filePaths
    rw [hpf] at h
    exact h
  subst hr2
  constructor
  · intro hz
    simp only [safeguardMain, hrc, hpf]
    simp [hb1, hfp0, hz, List.append_assoc]
  · intro hnz
    simp only [safeguardMain, hrc, hpf]
    simp [hb1, hfp0, hnz, batchPrompt, List.append_assoc]

/-- C2 (corrected): the configuration errors detected before the per-file
loop — missing revisions, missing file list, missing credential for a
*recognized* provider — abort with exit 1 before any fetch and without any
provider call.  An unknown provider name, however, is not detected before
the loop: the run performs its fetches first and only then aborts (exit 1)
at provider dispatch — or even exits 0 when no usable diff was found — and
in no case makes a provider call. -/
theorem config_error_handling (env : Env) (cfg : Config) :
    (configRejected env cfg →
      (safeguardMain env cfg).2 = .exited 1
      ∧ fetchCount (safeguardMain env cfg).1 = 0
      ∧ providerCalls (safeguardMain env cfg).1 = [])
    ∧ (cfg.provider ≠ "anthropic" → cfg.provider ≠ "openai" →
      providerCalls (safeguardMain env cfg).1 = []
      ∧ ((safeguardMain env cfg).2 = .exited 0 ∨ (safeguardMain env cfg).2 = .exited 1)) := by
  rcases hrc : resolveConfig env.getenv cfg with ⟨evc, rc⟩
  have hevc : ∀ e ∈ evc, ∃ s, e = .print s := by
    intro e he
    exact resolveConfig_events_print env.getenv cfg e (by rw [hrc]; exact he)
  have hbe : ∀ e ∈ banner ++ evc, ∃ s, e = .print s := print_only_append banner_print hevc
  constructor
  · intro hrej
    cases rc with
    | none =>
      have hmain : safeguardMain env cfg = (banner ++ evc, .exited 1) := by
        simp only [safeguardMain, hrc]
      obtain ⟨hp1, _, hp3⟩ := print_only_filters hbe
      rw [hmain]
      exact ⟨rfl, by simp only [fetchCount, hp3, List.length_nil], hp1⟩
    | some cfg' =>
      obtain ⟨hsb, htb, hfp, hpr⟩ := resolveConfig_preserves env.getenv cfg cfg'
        (by rw [hrc])
      have hbad : cfg'.sourceBranch = "" ∨ cfg'.targetBranch = "" ∨ cfg'.filePaths = [] := by
        rcases hrej with h | h | h | ⟨hk0, hp0, hA⟩ | ⟨hk0, hp0, hO⟩
        · exact Or.inl (by rw [hsb, h])
        · exact Or.inr (Or.inl (by rw [htb, h]))
        · exact Or.inr (Or.inr (by rw [hfp, h]))
        · have h0 := resolveConfig_rejected_anth env.getenv cfg hk0 hp0 hA
          rw [hrc] at h0
          simp at h0
        · have h0 := resolveConfig_rejected_oai env.getenv cfg hk0 hp0 hO
          rw [hrc] at h0
          simp at h0
      by_cases hb1 : cfg'.sourceBranch = "" ∨ cfg'.targetBranch = ""
      · have hmain : safeguardMain env cfg
            = (banner ++ evc
                ++ [.print "Error: Source branch and target branch are required\n"],
               .exited 1) := by
          simp only [safeguardMain, hrc]
          simp [hb1]
        have hall := print_only_append hbe (single_print
          "Error: Source branch and target branch are required\n")
        obtain ⟨hp1, _, hp3⟩ := print_only_filters hall
        rw [hmain]
        exact ⟨rfl, by simp only [fetchCount, hp3, List.length_nil], hp1⟩
      · have hfp0 : cfg'.filePaths = [] := by
          rcases hbad with h | h | h
          · exact absurd (Or.inl h) hb1
          · exact absurd (Or.inr h) hb1
          · exact h
        have hmain : safeguardMain env cfg
            = (banner ++ evc
                ++ [.print "Error: At least one file path is required. Use --interactive flag to select files interactively.\n"],
               .exited 1) := by
          simp only [safeguardMain, hrc]
          simp [hb1, hfp0]
        have hall := print_only_append hbe (single_print
          "Error: At least one file path is required. Use --interactive flag to select files interactively.\n")
        obtain ⟨hp1, _, hp3⟩ := print_only_filters hall
        rw [hmain]
        exact ⟨rfl, by simp only [fetchCount, hp3, List.length_nil], hp1⟩
  · intro hna hno
    cases rc with
    | none =>
      have hmain : safeguardMain env cfg = (banner ++ evc, .exited 1) := by
        simp only [safeguardMain, hrc]
      obtain ⟨hp1, _, _⟩ := print_only_filters hbe
      rw [hmain]
      exact ⟨hp1, Or.inr rfl⟩
    | some cfg' =>
      obtain ⟨hsb, htb, hfp, hpr⟩ := resolveConfig_preserves env.getenv cfg cfg'
        (by rw [hrc])
      have hna' : cfg'.provider ≠ "anthropic" := by rw [hpr]; exact hna
      have hno' : cfg'.provider ≠ "openai" := by rw [hpr]; exact hno
      have hbeP : providerCalls (banner ++ evc) = [] := (print_only_filters hbe).1
      by_cases hb1 : cfg'.sourceBranch = "" ∨ cfg'.targetBranch = ""
      · have hmain : safeguardMain env cfg
            = (banner ++ evc
                ++ [.print "Error: Source branch and target branch are required\n"],
               .exited 1) := by
          simp only [safeguardMain, hrc]
          simp [hb1]
        rw [hmain]
        refine ⟨?_, Or.inr rfl⟩
        rw [providerCalls_append, hbeP]
        rfl
      · by_cases hfp0 : cfg'.filePaths = []
        · have hmain : safeguardMain env cfg
              = (banner ++ evc
                  ++ [.print "Error: At least one file path is required. Use --interactive flag to select files interactively.\n"],
                 .exited 1) := by
            simp only [safeguardMain, hrc]
            simp [hb1, hfp0]
          rw [hmain]
          refine ⟨?_, Or.inr rfl⟩
          rw [providerCalls_append, hbeP]
          rfl
        · have hloopP : providerCalls (processFiles env cfg' cfg'.filePaths).1 = [] :=
            providerCalls_processFiles env cfg' cfg'.filePaths
          by_cases hz : usableResults env cfg' = []
          · have hmain := (safeguardMain_after_resolve env cfg cfg' evc hrc hb1 hfp0).1 hz
            rw [hmain]
            refine ⟨?_, Or.inl rfl⟩
            simp only [providerCalls_append, hbeP, hloopP]
            rfl
          · have hmain := (safeguardMain_after_resolve env cfg cfg' evc hrc hb1 hfp0).2 hz
            rw [hmain, dispatchProvider_unknown env cfg' _ _ hna' hno']
            refine ⟨?_, Or.inr rfl⟩
            simp only [providerCalls_append, hbeP, hloopP]
            rfl

/-- The single-file configuration with an unrecognized provider name. -/
def demoCfgUnknown : Config :=
  ⟨["a.txt"], "main", "feat", "claude-3-5-sonnet-20240620", "mistral", "sk-demo"⟩

/-- C2 counterexample: a concrete run whose only configuration error is the
unknown provider name `"mistral"` performs both fetches of its one file
before the fatal exit — refuting "no fetch is performed before the fatal
abort" for unknown providers (no provider call occurs, but the fetches do). -/
theorem unknown_provider_fetches_before_abort :
    fetchCount (safeguardMain demoEnv demoCfgUnknown).1 = 2
    ∧ (safeguardMain demoEnv demoCfgUnknown).2 = .exited 1
    ∧ providerCalls (safeguardMain demoEnv demoCfgUnknown).1 = [] :=
  ⟨rfl, rfl, rfl⟩

/-- A configuration with an empty source revision. -/
def demoCfgNoSource : Config :=
  ⟨["a.txt"], "", "feat", "claude-3-5-sonnet-20240620", "anthropic", "sk-demo"⟩

/-- Witness for C2 at concrete inputs: a missing source revision aborts with
exit 1, zero fetches and zero provider calls; the unknown-provider run makes
no provider call and exits 0 or 1. -/
theorem config_error_handling_witness :
    ((safeguardMain demoEnv demoCfgNoSource).2 = .exited 1
      ∧ fetchCount (safeguardMain demoEnv demoCfgNoSource).1 = 0
      ∧ providerCalls (safeguardMain demoEnv demoCfgNoSource).1 = [])
    ∧ (providerCalls (safeguardMain demoEnv demoCfgUnknown).1 = []
      ∧ ((safeguardMain demoEnv demoCfgUnknown).2 = .exited 0
          ∨ (safeguardMain demoEnv demoCfgUnknown).2 = .exited 1)) :=
  ⟨(config_error_handling demoEnv demoCfgNoSource).1 (Or.inl rfl),
   (config_error_handling demoEnv demoCfgUnknown).2 (by decide) (by decide)⟩

end Safeguard
